import Mathlib

/-!
Verification development for the `pipe_tasks` fragment: the coaddition
argument handling (`coaddArgumentParser.py`), the timeout decorator
(`qaTimeout.py`) and the fake-source task stub (`fakes.py`).

Modelling conventions:
* Python floats are modelled as exact rationals (`ℚ`); none of the claims
  concerns floating-point rounding.
* The external framework objects (`lsst.afw.geom`, `lsst.afw.coord`,
  `lsst.skymap`, `lsst.pipe.base`) are modelled abstractly: a WCS is a
  function from sky coordinates to pixel positions, a sky map is a pair of
  functions (tract lookup by coordinate, tract info by id), and the
  `SkyMap(...)` constructor is a parameter of the embedding.
* An `argparse` namespace is an association list from attribute names to
  Python values, so that attribute deletion (`del namespace.llc`) and
  attribute absence are directly expressible.
* Python exceptions are modelled with `Except`: `RuntimeError` carries its
  message; the other exception kinds that can arise in this code
  (`TypeError`-like failures from ill-typed attribute values, and
  `AttributeError` from absent attributes) are collapsed to tags, since no
  claim distinguishes their messages.
-/

/-- afwGeom.Angle, modelled exactly: `piRadians` is the angle in radians
divided by π, so an angle of `d` degrees (that is, `d * π / 180` radians) is
stored as `d / 180`. -/
structure Angle where
  piRadians : ℚ
deriving DecidableEq

/-- Conversion `afwGeom.Angle(d, afwGeom.degrees)`: `d` degrees is `d * π / 180` radians. -/
def Angle.degrees (d : ℚ) : Angle := ⟨d / 180⟩

/-- Conversion `afwGeom.Angle(s, afwGeom.arcseconds)`: `s` arcseconds is
`s * π / 648000` radians. -/
def Angle.arcseconds (s : ℚ) : Angle := ⟨s / 648000⟩

/-- An `afwCoord.IcrsCoord`: an ICRS sky position, built from two angles. -/
structure IcrsCoord where
  ra : Angle
  dec : Angle
deriving DecidableEq

/-- An `afwGeom.Point2D`: a (sub-pixel) pixel position. -/
structure Point2D where
  x : ℚ
  y : ℚ
deriving DecidableEq

/-- An `afwGeom.Point2I`: an integer pixel index. -/
structure Point2I where
  x : ℤ
  y : ℤ
deriving DecidableEq

/-- An `afwGeom.Extent2I`: an integer pixel extent. -/
structure Extent2I where
  x : ℤ
  y : ℤ
deriving DecidableEq

/-- An `afwGeom.Box2I(minPoint, dimensions)`: an integer box given by its
lower-left corner and its dimensions. -/
structure Box2I where
  minPoint : Point2I
  dimensions : Extent2I
deriving DecidableEq

/-- The external conversion `afwGeom.Point2I(p : Point2D)` from a pixel
position to an integer pixel index.  The exact rounding rule lives in the
external afw library; it is modelled as componentwise floor, and every claim
below is insensitive to this choice because both the embedding and the claim
statements go through this one definition. -/
def Point2I.ofPoint2D (p : Point2D) : Point2I := ⟨⌊p.x⌋, ⌊p.y⌋⟩

/-- Division `Extent2I / n`: componentwise integer division (C++ integer division,
truncation toward zero). -/
def Extent2I.intDiv (e : Extent2I) (n : ℤ) : Extent2I := ⟨Int.tdiv e.x n, Int.tdiv e.y n⟩

/-- Subtraction `Point2I - Extent2I`: componentwise subtraction. -/
def Point2I.subExtent (p : Point2I) (e : Extent2I) : Point2I := ⟨p.x - e.x, p.y - e.y⟩

/-- An `afwMath.Wcs` as this code uses it: only `skyToPixel` is consulted. -/
structure Wcs where
  skyToPixel : IcrsCoord → Point2D

/-- An `lsst.skymap.SkyTractInfo` as this code uses it: `getWcs` and
`getCtrCoord` are the only methods consulted. -/
structure SkyTractInfo where
  getWcs : Wcs
  getCtrCoord : IcrsCoord

/-- An `lsst.skymap.SkyMap` as this code uses it: `getSkyTractId` chooses a
tract for a sky position, `getSkyTractInfo` resolves a tract id. -/
structure SkyMap where
  getSkyTractId : IcrsCoord → ℤ
  getSkyTractInfo : ℤ → SkyTractInfo

/-- Replace the tract-selection function of a sky map, leaving tract
resolution unchanged (used to state that `getSkyTractId` is not consulted). -/
def SkyMap.setTractId (m : SkyMap) (g : IcrsCoord → ℤ) : SkyMap :=
  { m with getSkyTractId := g }

/-- Replace the sky-to-pixel projection of every tract of a sky map, leaving
everything else unchanged (used to state that `skyToPixel` is not consulted). -/
def SkyMap.setSkyToPixel (m : SkyMap) (g : ℤ → IcrsCoord → Point2D) : SkyMap :=
  { m with getSkyTractInfo := fun t =>
      { m.getSkyTractInfo t with getWcs := ⟨g t⟩ } }

/-- The attribute names that `CoaddArgumentParser` reads, writes or deletes
on the parsed namespace. -/
inductive AttrName where
  | fwhm
  | radec
  | tract
  | llc
  | size
  | projection
  | scale
  | overlap
  | skyMap
  | skyTractInfo
  | wcs
  | bbox
deriving DecidableEq

/-- A Python value as it can appear on the namespace in this code. -/
inductive Value where
  | pyNone
  | float (q : ℚ)
  | floatPair (a b : ℚ)
  | int (n : ℤ)
  | intPair (a b : ℤ)
  | str (s : String)
  | coord (c : IcrsCoord)
  | box (b : Box2I)
  | wcsV (w : Wcs)
  | skyMapV (m : SkyMap)
  | tractInfo (t : SkyTractInfo)

/-- An `argparse` namespace: attributes in order, each with a value.
Deleted attributes are genuinely absent from the list. -/
def Namespace := List (AttrName × Value)

/-- Read an attribute; `none` means the attribute is absent. -/
def nsGet : Namespace → AttrName → Option Value
  | [], _ => none
  | (k, v) :: rest, a => if k = a then some v else nsGet rest a

/-- Set an attribute (replacing the first binding, or appending). -/
def nsSet : Namespace → AttrName → Value → Namespace
  | [], a, v => [(a, v)]
  | (k, w) :: rest, a, v => if k = a then (a, v) :: rest else (k, w) :: nsSet rest a v

/-- Delete an attribute (`del namespace.x`). -/
def nsDel (ns : Namespace) (a : AttrName) : Namespace :=
  ns.filter (fun kv => decide (kv.1 ≠ a))

/-- A Python exception as this code can raise it. -/
inductive PyErr where
  | runtimeError (msg : String)
  | typeError
  | attributeError
deriving DecidableEq

/-- Read an attribute expected to hold a float (`TypeError` on an ill-typed
value, e.g. `Angle(None, ...)`). -/
def getFloatAttr (ns : Namespace) (a : AttrName) : Except PyErr ℚ :=
  match nsGet ns a with
  | some (Value.float q) => .ok q
  | some _ => .error .typeError
  | none => .error .attributeError

/-- Read an attribute expected to hold a string. -/
def getStrAttr (ns : Namespace) (a : AttrName) : Except PyErr String :=
  match nsGet ns a with
  | some (Value.str s) => .ok s
  | some _ => .error .typeError
  | none => .error .attributeError

namespace CoaddArgumentParser

/-- Table `CoaddArgumentParser._DefaultScale` (lines 44–47): default plate scale
for coadds (arcsec/pixel), per camera name. -/
def _DefaultScale : String → Option ℚ := fun camera =>
  if camera = "lsstSim" then some (14 / 100)
  else if camera = "suprimecam" then some (14 / 100)
  else none

/-- Table `CoaddArgumentParser._DefaultOverlap` (lines 50–53): default overlap of
sky tracts (deg), per camera name. -/
def _DefaultOverlap : String → Option ℚ := fun camera =>
  if camera = "lsstSim" then some (35 / 10)
  else if camera = "suprimecam" then some (15 / 10)
  else none

/-- What `add_argument` records for an optional argument: its default value
and whether the parser demands it on the command line. -/
structure ArgDescriptor where
  default : Option ℚ
  required : Bool
deriving DecidableEq

/-- Embedding of `CoaddArgumentParser.handleCamera` (lines 72–84): given the
scale and overlap tables (`self._DefaultScale` / `self._DefaultOverlap`, which
a subclass may override) and the camera name, it declares the `--scale` and
`--overlap` arguments.  Note that the source marks `--overlap` required by
testing `defaultScale == None`, not `defaultOverlap is None`. -/
def handleCamera (scaleTable overlapTable : String → Option ℚ) (camera : String) :
    ArgDescriptor × ArgDescriptor :=
  let defaultScale := scaleTable camera
  let defaultOverlap := overlapTable camera
  ({ default := defaultScale, required := defaultScale.isNone },
   { default := defaultOverlap, required := defaultScale.isNone })

/-- The namespace the base parser hands to the tail of `parse_args` for the
coadd-specific arguments declared in `__init__` (lines 59–70) and
`handleCamera` (lines 81–84): every declared attribute is present, holding
Python `None` when the flag was omitted.  `--projection` defaults to a
string, `--fwhm` to a float; `--scale` and `--overlap` are floats whenever
parsing succeeded (each is either required or defaulted).  Attributes of the
base parser that this code never touches (e.g. `camera`) are irrelevant to
every claim and are not modelled. -/
def mkBaseNamespace (fwhmArg : ℚ) (radecArg : Option (ℚ × ℚ)) (tractArg : Option ℤ)
    (llcArg : Option (ℤ × ℤ)) (sizeArg : Option (ℤ × ℤ)) (projArg : String)
    (scaleArg : ℚ) (overlapArg : ℚ) : Namespace :=
  [ (.fwhm, .float fwhmArg),
    (.radec, match radecArg with | some (a, b) => .floatPair a b | none => .pyNone),
    (.tract, match tractArg with | some t => .int t | none => .pyNone),
    (.llc, match llcArg with | some (a, b) => .intPair a b | none => .pyNone),
    (.size, match sizeArg with | some (a, b) => .intPair a b | none => .pyNone),
    (.projection, .str projArg),
    (.scale, .float scaleArg),
    (.overlap, .float overlapArg) ]

/-- Embedding of the coadd-specific tail of `CoaddArgumentParser.parse_args`
(lines 111–152), applied to the namespace returned by the external base call
`pipeBase.ArgumentParser.parse_args` (line 109).  `skyMapCtor` abstracts the
external constructor `lsst.skymap.SkyMap(projection, pixelScale, overlap)`.
Where the source re-reads an attribute it has just set (`namespace.skyMap`,
converted `namespace.radec`, `namespace.wcs`), the embedding uses the local
value, which `nsGet`/`nsSet` make provably identical. -/
def parse_args (skyMapCtor : String → Angle → Angle → SkyMap) (ns : Namespace) :
    Except PyErr Namespace := do
  -- lines 111–115: namespace.skyMap = SkyMap(projection, pixelScale, overlap)
  let proj ← getStrAttr ns .projection
  let scaleV ← getFloatAttr ns .scale
  let overlapV ← getFloatAttr ns .overlap
  let smv := skyMapCtor proj (Angle.arcseconds scaleV) (Angle.degrees overlapV)
  let ns := nsSet ns .skyMap (.skyMapV smv)
  -- lines 117–119: convert --radec degrees into an IcrsCoord of degree Angles
  let radecOpt ← match nsGet ns .radec with
    | some Value.pyNone => pure (none : Option IcrsCoord)
    | some (Value.floatPair ra dec) =>
        pure (some ⟨Angle.degrees ra, Angle.degrees dec⟩)
    | some _ => throw .typeError
    | none => throw .attributeError
  let ns := match radecOpt with
    | some c => nsSet ns .radec (.coord c)
    | none => ns
  -- line 121: dimensions = Extent2I(size[0], size[1]); subscripting None is
  -- a TypeError, so an omitted --size fails here
  let dims : Extent2I ← match nsGet ns .size with
    | some (Value.intPair a b) => pure ⟨a, b⟩
    | some _ => throw .typeError
    | none => throw .attributeError
  -- lines 123–127: choose the tract id
  let tractId ← match nsGet ns .tract with
    | some (Value.int t) => pure t
    | some Value.pyNone =>
        match radecOpt with
        | none => throw (.runtimeError "Must specify tract or radec")
        | some c => pure (smv.getSkyTractId c)
    | some _ => throw .typeError
    | none => throw .attributeError
  -- lines 129–130
  let ti := smv.getSkyTractInfo tractId
  let ns := nsSet ns .skyTractInfo (.tractInfo ti)
  let wcsVal := ti.getWcs
  let ns := nsSet ns .wcs (.wcsV wcsVal)
  -- lines 132–140: determine the lower-left corner
  let llcPixInd : Point2I ← match nsGet ns .llc with
    | some (Value.intPair a b) => pure ⟨a, b⟩
    | some Value.pyNone =>
        match radecOpt with
        | none => throw (.runtimeError "Must specify llc or radec")
        | some c =>
            let ctrPixPos := wcsVal.skyToPixel c
            let ctrPixInd := Point2I.ofPoint2D ctrPixPos
            pure (ctrPixInd.subExtent (dims.intDiv 2))
    | some _ => throw .typeError
    | none => throw .attributeError
  -- line 141
  let ns := nsSet ns .bbox (.box ⟨llcPixInd, dims⟩)
  -- lines 142–143: fall back to the tract center when --radec was omitted
  let ns := match radecOpt with
    | none => nsSet ns .radec (.coord ti.getCtrCoord)
    | some _ => ns
  -- lines 145–150
  let ns := nsDel ns .llc
  let ns := nsDel ns .size
  let ns := nsDel ns .scale
  let ns := nsDel ns .projection
  let ns := nsDel ns .overlap
  let ns := nsDel ns .tract
  return ns

end CoaddArgumentParser

/-! ## qaTimeout.py -/

/-- The outcome of running the wrapped function itself: either it returns a
value, or it raises an exception of its own (identified by a descriptor). -/
inductive FuncOutcome (α : Type) where
  | ok (value : α)
  | exc (e : String)
deriving DecidableEq

/-- A summary of one call of the wrapped function: how many seconds it would
run undisturbed, and what it would then produce. -/
structure FuncModel (α : Type) where
  runTime : ℕ
  outcome : FuncOutcome α
deriving DecidableEq

/-- The outcome of a call of the wrapper: a returned value, a
`TimeoutError(errMsg)` raised by the alarm handler, or an exception raised
by the wrapped function itself. -/
inductive PyResult (α : Type) where
  | ok (value : α)
  | timeoutError (msg : String)
  | exc (e : String)
deriving DecidableEq

/-- The process signal state this code manipulates: the pending alarm
(`signal.alarm`; 0 means no alarm is scheduled) and the installed SIGALRM
handler, recorded as the message the handler would put in its
`TimeoutError` (`none` = some handler not installed by this code). -/
structure SignalState where
  alarmSeconds : ℕ
  handlerMsg : Option String
deriving DecidableEq

namespace qaTimeout

/-- Embedding of the `wrapper` closure of `qaTimeout` (lines 18–27), with the
operating-system timing summarized discretely: after `signal.alarm(timeout)`,
SIGALRM is delivered during the call of `func` exactly when an alarm is
scheduled (`timeout ≠ 0`, since `signal.alarm(0)` schedules none) and it
comes due no later than `func` would finish.  Delivery runs
`_timeoutHandler` (lines 13–16), which raises `TimeoutError(errMsg)`; a
delivered alarm is no longer pending.  The `finally` clause
(`signal.alarm(0)`, line 25) runs on the normal and on every exceptional
path.  The wrapper returns the outcome together with the final signal
state. -/
def wrapper (timeout : ℕ) (errMsg : String) (func : FuncModel α) (s : SignalState) :
    PyResult α × SignalState :=
  -- line 19: signal.signal(signal.SIGALRM, _timeoutHandler)
  let s1 : SignalState := { s with handlerMsg := some errMsg }
  -- line 20: signal.alarm(timeout)
  let s2 : SignalState := { s1 with alarmSeconds := timeout }
  -- lines 22–23: try: result = func(*args, **kwargs)
  let fired : Bool := decide (0 < s2.alarmSeconds ∧ s2.alarmSeconds ≤ func.runTime)
  let step : PyResult α × SignalState :=
    if fired then
      (PyResult.timeoutError errMsg, { s2 with alarmSeconds := 0 })
    else
      (match func.outcome with
       | FuncOutcome.ok v => PyResult.ok v
       | FuncOutcome.exc e => PyResult.exc e, s2)
  -- lines 24–25: finally: signal.alarm(0), before returning or propagating
  let s3 : SignalState := { step.2 with alarmSeconds := 0 }
  (step.1, s3)

end qaTimeout

/-! ## fakes.py -/

/-- A `FakeSourcesTask`: its state after `__init__`, namely the `bitmask`
attribute (the plane bit mask value is opaque to this code). -/
structure FakeSourcesTask (τ : Type) where
  bitmask : τ

/-- Embedding of `FakeSourcesTask.run` (lines 37–38).  The body is `pass`,
so in the state-passing embedding it returns Python `None` and hands every
state back unchanged: the task state and the three mutable arguments
(exposure, sources, background), each of abstract type. -/
def FakeSourcesTask.run (task : FakeSourcesTask τ) (exposure : ε) (sources : σ)
    (background : β) : Option Unit × FakeSourcesTask τ × ε × σ × β :=
  (none, task, exposure, sources, background)

/-! ## Concrete fixtures (used by witnesses and counterexamples) -/

/-- A concrete sky tract: the projection sends a coordinate to 100 times its
π-scaled components, the center coordinate is the origin. -/
def testTractInfo : SkyTractInfo :=
  { getWcs := ⟨fun c => ⟨c.ra.piRadians * 100, c.dec.piRadians * 100⟩⟩,
    getCtrCoord := ⟨⟨1 / 4⟩, ⟨1 / 8⟩⟩ }

/-- A concrete sky map: every coordinate selects tract 7, every tract id
resolves to `testTractInfo`. -/
def testSkyMap : SkyMap :=
  { getSkyTractId := fun _ => 7,
    getSkyTractInfo := fun _ => testTractInfo }

/-- A concrete stand-in for the external `SkyMap` constructor. -/
def testSkyMapCtor : String → Angle → Angle → SkyMap := fun _ _ _ => testSkyMap

/-- The namespace a successful `parse_args` call produces (and `[]` on an
errored call; the fixtures below only use it at succeeding inputs). -/
def coaddOutputOf (ctor : String → Angle → Angle → SkyMap) (ns : Namespace) : Namespace :=
  match CoaddArgumentParser.parse_args ctor ns with
  | .ok out => out
  | .error _ => []

/-- Output namespace for a call with `--radec` supplied and `--tract`,
`--llc` omitted. -/
def outRadecOnly : Namespace :=
  coaddOutputOf testSkyMapCtor
    (CoaddArgumentParser.mkBaseNamespace 0 (some (1, 2)) none none (some (10, 20)) "STG" 1 2)

/-- Output namespace for a call with `--radec` and `--tract` supplied and
`--llc` omitted. -/
def outTractRadec : Namespace :=
  coaddOutputOf testSkyMapCtor
    (CoaddArgumentParser.mkBaseNamespace 0 (some (1, 2)) (some 5) none (some (10, 20)) "STG" 1 2)

/-- Output namespace for a call with `--tract` and `--llc` supplied and
`--radec` omitted. -/
def outTractLlc : Namespace :=
  coaddOutputOf testSkyMapCtor
    (CoaddArgumentParser.mkBaseNamespace 0 none (some 5) (some (3, 4)) (some (10, 20)) "STG" 1 2)


/-- The coordinate built from two degree values (lines 118–119). -/
def coordOfDeg (ra dec : ℚ) : IcrsCoord := ⟨Angle.degrees ra, Angle.degrees dec⟩

/-- The sky map constructed at lines 111–115 from the namespace arguments. -/
def skyMapOf (f : String → Angle → Angle → SkyMap) (proj : String) (sc ov : ℚ) : SkyMap :=
  f proj (Angle.arcseconds sc) (Angle.degrees ov)

/-- The tract info selected by delegating to `getSkyTractId` (line 127). -/
def tractInfoByCoord (f : String → Angle → Angle → SkyMap) (proj : String) (sc ov ra dec : ℚ) :
    SkyTractInfo :=
  (skyMapOf f proj sc ov).getSkyTractInfo
    ((skyMapOf f proj sc ov).getSkyTractId (coordOfDeg ra dec))

/-- The tract info selected by a supplied tract id (line 129). -/
def tractInfoById (f : String → Angle → Angle → SkyMap) (proj : String) (sc ov : ℚ) (t : ℤ) :
    SkyTractInfo :=
  (skyMapOf f proj sc ov).getSkyTractInfo t

/-- The bounding box of lines 138–141: centered on the projected coordinate. -/
def centeredBox (w : Wcs) (c : IcrsCoord) (sx sy : ℤ) : Box2I :=
  ⟨(Point2I.ofPoint2D (w.skyToPixel c)).subExtent ((Extent2I.mk sx sy).intDiv 2), ⟨sx, sy⟩⟩

/-- The bounding box of lines 134 and 141: anchored at the supplied corner. -/
def cornerBox (la lb sx sy : ℤ) : Box2I := ⟨⟨la, lb⟩, ⟨sx, sy⟩⟩

/-- The namespace shape of every successful `parse_args` return: `fwhm` and
`radec` survive from the input (the rest of the input attributes are
deleted), and `skyMap`, `skyTractInfo`, `wcs`, `bbox` were appended. -/
def coaddOutput (fw : ℚ) (c : IcrsCoord) (m : SkyMap) (ti : SkyTractInfo) (b : Box2I) :
    Namespace :=
  [ (.fwhm, .float fw), (.radec, .coord c), (.skyMap, .skyMapV m),
    (.skyTractInfo, .tractInfo ti), (.wcs, .wcsV ti.getWcs), (.bbox, .box b) ]

/-! Theorems.  First, one evaluation lemma per input shape (each a single
definitional reduction of the embedding), then the claims, derived from
them. -/

set_option maxHeartbeats 4000000

open CoaddArgumentParser

/-- Evaluation: `--radec` supplied, `--tract` and `--llc` omitted. -/
theorem parse_args_eval_radec (f : String → Angle → Angle → SkyMap) (fw ra dec : ℚ)
    (sx sy : ℤ) (proj : String) (sc ov : ℚ) :
    parse_args f (mkBaseNamespace fw (some (ra, dec)) none none (some (sx, sy)) proj sc ov)
      = .ok (coaddOutput fw (coordOfDeg ra dec) (skyMapOf f proj sc ov)
          (tractInfoByCoord f proj sc ov ra dec)
          (centeredBox (tractInfoByCoord f proj sc ov ra dec).getWcs (coordOfDeg ra dec) sx sy)) :=
  rfl

/-- Evaluation: `--radec` and `--tract` supplied, `--llc` omitted. -/
theorem parse_args_eval_radec_tract (f : String → Angle → Angle → SkyMap) (fw ra dec : ℚ)
    (t : ℤ) (sx sy : ℤ) (proj : String) (sc ov : ℚ) :
    parse_args f (mkBaseNamespace fw (some (ra, dec)) (some t) none (some (sx, sy)) proj sc ov)
      = .ok (coaddOutput fw (coordOfDeg ra dec) (skyMapOf f proj sc ov)
          (tractInfoById f proj sc ov t)
          (centeredBox (tractInfoById f proj sc ov t).getWcs (coordOfDeg ra dec) sx sy)) :=
  rfl

/-- Evaluation: `--radec` and `--llc` supplied, `--tract` omitted. -/
theorem parse_args_eval_radec_llc (f : String → Angle → Angle → SkyMap) (fw ra dec : ℚ)
    (la lb sx sy : ℤ) (proj : String) (sc ov : ℚ) :
    parse_args f
        (mkBaseNamespace fw (some (ra, dec)) none (some (la, lb)) (some (sx, sy)) proj sc ov)
      = .ok (coaddOutput fw (coordOfDeg ra dec) (skyMapOf f proj sc ov)
          (tractInfoByCoord f proj sc ov ra dec) (cornerBox la lb sx sy)) :=
  rfl

/-- Evaluation: `--radec`, `--tract` and `--llc` all supplied. -/
theorem parse_args_eval_radec_tract_llc (f : String → Angle → Angle → SkyMap) (fw ra dec : ℚ)
    (t la lb sx sy : ℤ) (proj : String) (sc ov : ℚ) :
    parse_args f
        (mkBaseNamespace fw (some (ra, dec)) (some t) (some (la, lb)) (some (sx, sy)) proj sc ov)
      = .ok (coaddOutput fw (coordOfDeg ra dec) (skyMapOf f proj sc ov)
          (tractInfoById f proj sc ov t) (cornerBox la lb sx sy)) :=
  rfl

/-- Evaluation: `--radec` omitted, `--tract` and `--llc` supplied; `radec`
is filled from the tract center. -/
theorem parse_args_eval_tract_llc (f : String → Angle → Angle → SkyMap) (fw : ℚ)
    (t la lb sx sy : ℤ) (proj : String) (sc ov : ℚ) :
    parse_args f (mkBaseNamespace fw none (some t) (some (la, lb)) (some (sx, sy)) proj sc ov)
      = .ok (coaddOutput fw (tractInfoById f proj sc ov t).getCtrCoord (skyMapOf f proj sc ov)
          (tractInfoById f proj sc ov t) (cornerBox la lb sx sy)) :=
  rfl

/-- Evaluation: `--radec` and `--tract` omitted (with `--size` supplied):
RuntimeError from line 126, whatever `--llc` is. -/
theorem parse_args_eval_no_tract_radec (f : String → Angle → Angle → SkyMap) (fw : ℚ)
    (llcArg : Option (ℤ × ℤ)) (sx sy : ℤ) (proj : String) (sc ov : ℚ) :
    parse_args f (mkBaseNamespace fw none none llcArg (some (sx, sy)) proj sc ov)
      = .error (.runtimeError "Must specify tract or radec") :=
  rfl

/-- Evaluation: `--radec` and `--llc` omitted, `--tract` supplied (with
`--size` supplied): RuntimeError from line 137. -/
theorem parse_args_eval_no_llc_radec (f : String → Angle → Angle → SkyMap) (fw : ℚ)
    (t sx sy : ℤ) (proj : String) (sc ov : ℚ) :
    parse_args f (mkBaseNamespace fw none (some t) none (some (sx, sy)) proj sc ov)
      = .error (.runtimeError "Must specify llc or radec") :=
  rfl

/-- Evaluation: `--size` omitted with `--radec` supplied: TypeError at line
121 (subscripting None), before the tract and llc checks. -/
theorem parse_args_eval_no_size_radec (f : String → Angle → Angle → SkyMap) (fw ra dec : ℚ)
    (tractArg : Option ℤ) (llcArg : Option (ℤ × ℤ)) (proj : String) (sc ov : ℚ) :
    parse_args f (mkBaseNamespace fw (some (ra, dec)) tractArg llcArg none proj sc ov)
      = .error .typeError :=
  rfl

/-- Evaluation: `--size` and `--radec` omitted: TypeError at line 121,
before the tract and llc checks. -/
theorem parse_args_eval_no_size_pyNone (f : String → Angle → Angle → SkyMap) (fw : ℚ)
    (tractArg : Option ℤ) (llcArg : Option (ℤ × ℤ)) (proj : String) (sc ov : ℚ) :
    parse_args f (mkBaseNamespace fw none tractArg llcArg none proj sc ov)
      = .error .typeError :=
  rfl

/-- Claim C1: when `--llc` is omitted and `--radec` is supplied, the bounding
box stored in `namespace.bbox` has its lower-left corner at the integer pixel
index of `wcs.skyToPixel(radec)` minus half the requested size (componentwise
integer halving), and its dimensions are exactly the requested size; here
`wcs` is the WCS stored in `namespace.wcs`.  The size components appear as
arguments because the claim speaks of the requested pixel extent `--size`. -/
theorem parse_args_bbox_centered_on_radec
    (f : String → Angle → Angle → SkyMap) (fw ra dec : ℚ) (tractArg : Option ℤ)
    (sx sy : ℤ) (proj : String) (sc ov : ℚ) :
    ∃ out w, parse_args f
        (mkBaseNamespace fw (some (ra, dec)) tractArg none (some (sx, sy)) proj sc ov)
        = .ok out ∧
      nsGet out .wcs = some (.wcsV w) ∧
      nsGet out .bbox = some (.box
        ⟨(Point2I.ofPoint2D (w.skyToPixel ⟨Angle.degrees ra, Angle.degrees dec⟩)).subExtent
            ((Extent2I.mk sx sy).intDiv 2),
         ⟨sx, sy⟩⟩) := by
  cases tractArg with
  | none => exact ⟨_, _, parse_args_eval_radec f fw ra dec sx sy proj sc ov, rfl, rfl⟩
  | some t => exact ⟨_, _, parse_args_eval_radec_tract f fw ra dec t sx sy proj sc ov, rfl, rfl⟩

/-- Claim C2 (amended): provided `--size` is supplied, `parse_args` raises
`RuntimeError` exactly when `--radec` is omitted together with `--tract` or
together with `--llc`; in every other such case it returns a namespace
carrying a bounding box and a WCS.  (Without `--size` the call fails with a
`TypeError` before those checks; see the counterexample.) -/
theorem parse_args_runtimeError_characterization
    (f : String → Angle → Angle → SkyMap) (fw : ℚ) (radecArg : Option (ℚ × ℚ))
    (tractArg : Option ℤ) (llcArg : Option (ℤ × ℤ)) (sx sy : ℤ)
    (proj : String) (sc ov : ℚ) :
    ((∃ msg, parse_args f
        (mkBaseNamespace fw radecArg tractArg llcArg (some (sx, sy)) proj sc ov)
        = .error (.runtimeError msg))
      ↔ radecArg = none ∧ (tractArg = none ∨ llcArg = none))
    ∧ ((radecArg = none → tractArg ≠ none ∧ llcArg ≠ none) →
        ∃ out, parse_args f
            (mkBaseNamespace fw radecArg tractArg llcArg (some (sx, sy)) proj sc ov)
            = .ok out ∧
          (∃ b, nsGet out .bbox = some (.box b)) ∧
          ∃ w, nsGet out .wcs = some (.wcsV w)) := by
  rcases radecArg with _ | ⟨r1, r2⟩ <;> rcases tractArg with _ | t <;>
    rcases llcArg with _ | ⟨la, lb⟩
  · exact ⟨⟨fun _ => ⟨rfl, Or.inl rfl⟩,
      fun _ => ⟨_, parse_args_eval_no_tract_radec f fw none sx sy proj sc ov⟩⟩,
      fun hcon => absurd rfl (hcon rfl).1⟩
  · exact ⟨⟨fun _ => ⟨rfl, Or.inl rfl⟩,
      fun _ => ⟨_, parse_args_eval_no_tract_radec f fw (some (la, lb)) sx sy proj sc ov⟩⟩,
      fun hcon => absurd rfl (hcon rfl).1⟩
  · exact ⟨⟨fun _ => ⟨rfl, Or.inr rfl⟩,
      fun _ => ⟨_, parse_args_eval_no_llc_radec f fw t sx sy proj sc ov⟩⟩,
      fun hcon => absurd rfl (hcon rfl).2⟩
  · exact ⟨⟨fun ⟨_, h⟩ => Except.noConfusion
        ((parse_args_eval_tract_llc f fw t la lb sx sy proj sc ov).symm.trans h),
      fun ⟨_, hor⟩ => hor.elim (fun hh => Option.noConfusion hh)
        (fun hh => Option.noConfusion hh)⟩,
      fun _ => ⟨_, parse_args_eval_tract_llc f fw t la lb sx sy proj sc ov,
        ⟨_, rfl⟩, ⟨_, rfl⟩⟩⟩
  · exact ⟨⟨fun ⟨_, h⟩ => Except.noConfusion
        ((parse_args_eval_radec f fw r1 r2 sx sy proj sc ov).symm.trans h),
      fun ⟨h1, _⟩ => Option.noConfusion h1⟩,
      fun _ => ⟨_, parse_args_eval_radec f fw r1 r2 sx sy proj sc ov,
        ⟨_, rfl⟩, ⟨_, rfl⟩⟩⟩
  · exact ⟨⟨fun ⟨_, h⟩ => Except.noConfusion
        ((parse_args_eval_radec_llc f fw r1 r2 la lb sx sy proj sc ov).symm.trans h),
      fun ⟨h1, _⟩ => Option.noConfusion h1⟩,
      fun _ => ⟨_, parse_args_eval_radec_llc f fw r1 r2 la lb sx sy proj sc ov,
        ⟨_, rfl⟩, ⟨_, rfl⟩⟩⟩
  · exact ⟨⟨fun ⟨_, h⟩ => Except.noConfusion
        ((parse_args_eval_radec_tract f fw r1 r2 t sx sy proj sc ov).symm.trans h),
      fun ⟨h1, _⟩ => Option.noConfusion h1⟩,
      fun _ => ⟨_, parse_args_eval_radec_tract f fw r1 r2 t sx sy proj sc ov,
        ⟨_, rfl⟩, ⟨_, rfl⟩⟩⟩
  · exact ⟨⟨fun ⟨_, h⟩ => Except.noConfusion
        ((parse_args_eval_radec_tract_llc f fw r1 r2 t la lb sx sy proj sc ov).symm.trans h),
      fun ⟨h1, _⟩ => Option.noConfusion h1⟩,
      fun _ => ⟨_, parse_args_eval_radec_tract_llc f fw r1 r2 t la lb sx sy proj sc ov,
        ⟨_, rfl⟩, ⟨_, rfl⟩⟩⟩

/-- Claim C2, witness: a call in the RuntimeError region raises RuntimeError,
and a call outside it (with `--size` supplied) returns a namespace with a
bounding box and a WCS. -/
theorem parse_args_runtimeError_characterization_witness :
    (∃ msg, parse_args testSkyMapCtor
        (mkBaseNamespace 0 none none none (some (10, 20)) "STG" 1 2)
        = .error (.runtimeError msg))
    ∧ ∃ out, parse_args testSkyMapCtor
        (mkBaseNamespace 0 (some (1, 2)) none none (some (10, 20)) "STG" 1 2)
        = .ok out ∧
      (∃ b, nsGet out .bbox = some (.box b)) ∧
      ∃ w, nsGet out .wcs = some (.wcsV w) :=
  ⟨(parse_args_runtimeError_characterization testSkyMapCtor 0 none none none
      10 20 "STG" 1 2).1.mpr ⟨rfl, Or.inl rfl⟩,
   (parse_args_runtimeError_characterization testSkyMapCtor 0 (some (1, 2)) none none
      10 20 "STG" 1 2).2 (fun hh => Option.noConfusion hh)⟩

/-- Claim C2, counterexample to the claim as stated: with `--radec`,
`--tract` and `--llc` all supplied but `--size` omitted, the claim says a
namespace is returned, but the code fails at
`Extent2I(namespace.size[0], namespace.size[1])` (subscripting `None`), a
`TypeError`, not a return and not a `RuntimeError`. -/
theorem parse_args_size_omitted_fails :
    parse_args testSkyMapCtor
      (mkBaseNamespace 0 (some (1, 2)) (some 0) (some (0, 0)) none "STG" 1 1)
      = .error .typeError :=
  parse_args_eval_no_size_radec testSkyMapCtor 0 1 2 (some 0) (some (0, 0)) "STG" 1 1

/-- Claim C3: with `--tract` omitted and `--radec` supplied, the stored sky
tract info is `skyMap.getSkyTractInfo (skyMap.getSkyTractId radec)`; with
`--tract` supplied, the stored sky tract info is `skyMap.getSkyTractInfo
tract`, and replacing the tract-selection function `getSkyTractId` of the
constructed sky map by anything else does not change it. -/
theorem parse_args_tract_selection
    (f : String → Angle → Angle → SkyMap) (fw ra dec : ℚ) (llcArg : Option (ℤ × ℤ))
    (sx sy : ℤ) (proj : String) (sc ov : ℚ) :
    (∃ out, parse_args f
        (mkBaseNamespace fw (some (ra, dec)) none llcArg (some (sx, sy)) proj sc ov)
        = .ok out ∧
      nsGet out .skyTractInfo = some (.tractInfo
        ((f proj (Angle.arcseconds sc) (Angle.degrees ov)).getSkyTractInfo
          ((f proj (Angle.arcseconds sc) (Angle.degrees ov)).getSkyTractId
            ⟨Angle.degrees ra, Angle.degrees dec⟩))))
    ∧ ∀ (t : ℤ) (radecArg : Option (ℚ × ℚ)) (out : Namespace),
        parse_args f
          (mkBaseNamespace fw radecArg (some t) llcArg (some (sx, sy)) proj sc ov)
          = .ok out →
        nsGet out .skyTractInfo = some (.tractInfo
          ((f proj (Angle.arcseconds sc) (Angle.degrees ov)).getSkyTractInfo t)) ∧
        ∀ g : String → Angle → Angle → IcrsCoord → ℤ,
          ∃ out2, parse_args (fun p s o => (f p s o).setTractId (g p s o))
              (mkBaseNamespace fw radecArg (some t) llcArg (some (sx, sy)) proj sc ov)
              = .ok out2 ∧
            nsGet out2 .skyTractInfo = nsGet out .skyTractInfo := by
  constructor
  · rcases llcArg with _ | ⟨la, lb⟩
    · exact ⟨_, parse_args_eval_radec f fw ra dec sx sy proj sc ov, rfl⟩
    · exact ⟨_, parse_args_eval_radec_llc f fw ra dec la lb sx sy proj sc ov, rfl⟩
  · intro t radecArg out h
    rcases llcArg with _ | ⟨la, lb⟩ <;> rcases radecArg with _ | ⟨r1, r2⟩
    · exact Except.noConfusion
        ((parse_args_eval_no_llc_radec f fw t sx sy proj sc ov).symm.trans h)
    · rw [parse_args_eval_radec_tract] at h
      cases Except.ok.inj h
      exact ⟨rfl, fun g =>
        ⟨_, parse_args_eval_radec_tract _ fw r1 r2 t sx sy proj sc ov, rfl⟩⟩
    · rw [parse_args_eval_tract_llc] at h
      cases Except.ok.inj h
      exact ⟨rfl, fun g =>
        ⟨_, parse_args_eval_tract_llc _ fw t la lb sx sy proj sc ov, rfl⟩⟩
    · rw [parse_args_eval_radec_tract_llc] at h
      cases Except.ok.inj h
      exact ⟨rfl, fun g =>
        ⟨_, parse_args_eval_radec_tract_llc _ fw r1 r2 t la lb sx sy proj sc ov, rfl⟩⟩

/-- Claim C3, witness: the second part applied at a concrete call with
`--tract 5` and `--radec` supplied, and a concrete replacement of the
tract-selection function. -/
theorem parse_args_tract_selection_witness :
    nsGet outTractRadec .skyTractInfo = some (.tractInfo
      ((testSkyMapCtor "STG" (Angle.arcseconds 1) (Angle.degrees 2)).getSkyTractInfo 5)) ∧
    ∃ out2, parse_args (fun p s o => (testSkyMapCtor p s o).setTractId (fun _ => 3))
        (mkBaseNamespace 0 (some (1, 2)) (some 5) none (some (10, 20)) "STG" 1 2)
        = .ok out2 ∧
      nsGet out2 .skyTractInfo = nsGet outTractRadec .skyTractInfo := by
  have h := (parse_args_tract_selection testSkyMapCtor 0 1 2 none 10 20 "STG" 1 2).2
    5 (some (1, 2)) outTractRadec rfl
  exact ⟨h.1, h.2 (fun _ _ _ _ => 3)⟩

/-- Claim C4: with `--llc` supplied, the lower-left corner of the stored
bounding box is exactly the supplied pixel corner, whether or not `--radec`
is supplied, and replacing the sky-to-pixel projection of every tract of the
constructed sky map by anything else does not change the bounding box. -/
theorem parse_args_llc_pins_corner
    (f : String → Angle → Angle → SkyMap) (fw : ℚ) (radecArg : Option (ℚ × ℚ))
    (tractArg : Option ℤ) (la lb sx sy : ℤ) (proj : String) (sc ov : ℚ)
    (g : ℤ → IcrsCoord → Point2D)
    (h : tractArg ≠ none ∨ radecArg ≠ none) :
    ∃ out, parse_args f
        (mkBaseNamespace fw radecArg tractArg (some (la, lb)) (some (sx, sy)) proj sc ov)
        = .ok out ∧
      nsGet out .bbox = some (.box ⟨⟨la, lb⟩, ⟨sx, sy⟩⟩) ∧
      ∃ out2, parse_args (fun p s o => (f p s o).setSkyToPixel g)
          (mkBaseNamespace fw radecArg tractArg (some (la, lb)) (some (sx, sy)) proj sc ov)
          = .ok out2 ∧
        nsGet out2 .bbox = nsGet out .bbox := by
  rcases radecArg with _ | ⟨r1, r2⟩ <;> rcases tractArg with _ | t
  · exact (h.elim (fun hh => hh rfl) (fun hh => hh rfl)).elim
  · exact ⟨_, parse_args_eval_tract_llc f fw t la lb sx sy proj sc ov, rfl,
      _, parse_args_eval_tract_llc _ fw t la lb sx sy proj sc ov, rfl⟩
  · exact ⟨_, parse_args_eval_radec_llc f fw r1 r2 la lb sx sy proj sc ov, rfl,
      _, parse_args_eval_radec_llc _ fw r1 r2 la lb sx sy proj sc ov, rfl⟩
  · exact ⟨_, parse_args_eval_radec_tract_llc f fw r1 r2 t la lb sx sy proj sc ov, rfl,
      _, parse_args_eval_radec_tract_llc _ fw r1 r2 t la lb sx sy proj sc ov, rfl⟩

/-- Claim C4, witness: a concrete call with `--llc 3 4` and `--radec`
supplied, against a projection replaced by a constant function. -/
theorem parse_args_llc_pins_corner_witness :
    ∃ out, parse_args testSkyMapCtor
        (mkBaseNamespace 0 (some (1, 2)) none (some (3, 4)) (some (10, 20)) "STG" 1 2)
        = .ok out ∧
      nsGet out .bbox = some (.box ⟨⟨3, 4⟩, ⟨10, 20⟩⟩) ∧
      ∃ out2, parse_args (fun p s o => (testSkyMapCtor p s o).setSkyToPixel (fun _ _ => ⟨0, 0⟩))
          (mkBaseNamespace 0 (some (1, 2)) none (some (3, 4)) (some (10, 20)) "STG" 1 2)
          = .ok out2 ∧
        nsGet out2 .bbox = nsGet out .bbox :=
  parse_args_llc_pins_corner testSkyMapCtor 0 (some (1, 2)) none 3 4 10 20 "STG" 1 2
    (fun _ _ => ⟨0, 0⟩) (Or.inr (fun hh => Option.noConfusion hh))


/-- Claim C5: the supplied `--radec` degree values are turned into an
`IcrsCoord` of degree-built angles, so on every successful return the stored
`namespace.radec` holds exactly those angles in the internal radian-based
representation: an angle of `d` degrees satisfies `piRadians * 180 = d`,
that is, it is stored as `d * π / 180` radians. -/
theorem parse_args_radec_converted
    (f : String → Angle → Angle → SkyMap) (fw ra dec : ℚ) (tractArg : Option ℤ)
    (llcArg : Option (ℤ × ℤ)) (sizeArg : Option (ℤ × ℤ)) (proj : String) (sc ov : ℚ)
    (out : Namespace)
    (h : parse_args f
        (mkBaseNamespace fw (some (ra, dec)) tractArg llcArg sizeArg proj sc ov)
        = .ok out) :
    nsGet out .radec = some (.coord ⟨Angle.degrees ra, Angle.degrees dec⟩) ∧
    (Angle.degrees ra).piRadians * 180 = ra ∧
    (Angle.degrees dec).piRadians * 180 = dec := by
  have hra : (Angle.degrees ra).piRadians * 180 = ra := div_mul_cancel₀ ra (by norm_num)
  have hdec : (Angle.degrees dec).piRadians * 180 = dec := div_mul_cancel₀ dec (by norm_num)
  rcases tractArg with _ | t <;> rcases llcArg with _ | ⟨la, lb⟩ <;>
    rcases sizeArg with _ | ⟨sx, sy⟩
  · exact Except.noConfusion
      ((parse_args_eval_no_size_radec f fw ra dec none none proj sc ov).symm.trans h)
  · rw [parse_args_eval_radec] at h
    cases Except.ok.inj h
    exact ⟨rfl, hra, hdec⟩
  · exact Except.noConfusion
      ((parse_args_eval_no_size_radec f fw ra dec none (some (la, lb)) proj sc ov).symm.trans h)
  · rw [parse_args_eval_radec_llc] at h
    cases Except.ok.inj h
    exact ⟨rfl, hra, hdec⟩
  · exact Except.noConfusion
      ((parse_args_eval_no_size_radec f fw ra dec (some t) none proj sc ov).symm.trans h)
  · rw [parse_args_eval_radec_tract] at h
    cases Except.ok.inj h
    exact ⟨rfl, hra, hdec⟩
  · exact Except.noConfusion
      ((parse_args_eval_no_size_radec f fw ra dec (some t) (some (la, lb)) proj sc ov).symm.trans h)
  · rw [parse_args_eval_radec_tract_llc] at h
    cases Except.ok.inj h
    exact ⟨rfl, hra, hdec⟩

/-- Claim C5, witness: a concrete successful call with `--radec 1 2`. -/
theorem parse_args_radec_converted_witness :
    nsGet outRadecOnly .radec = some (.coord ⟨Angle.degrees 1, Angle.degrees 2⟩) ∧
    (Angle.degrees 1).piRadians * 180 = 1 ∧
    (Angle.degrees (2 : ℚ)).piRadians * 180 = 2 :=
  parse_args_radec_converted testSkyMapCtor 0 1 2 none none (some (10, 20)) "STG" 1 2
    outRadecOnly rfl

/-- Claim C6: every successful return deletes the attributes `llc`, `size`,
`scale`, `projection`, `overlap` and `tract`, and carries non-None values for
`radec`, `bbox`, `wcs`, `skyMap` and `skyTractInfo`; when `--radec` was
omitted, `radec` is filled from the center coordinate of the selected sky
tract. -/
theorem parse_args_attribute_frame
    (f : String → Angle → Angle → SkyMap) (fw : ℚ) (radecArg : Option (ℚ × ℚ))
    (tractArg : Option ℤ) (llcArg : Option (ℤ × ℤ)) (sizeArg : Option (ℤ × ℤ))
    (proj : String) (sc ov : ℚ) (out : Namespace)
    (h : parse_args f
        (mkBaseNamespace fw radecArg tractArg llcArg sizeArg proj sc ov)
        = .ok out) :
    nsGet out .llc = none ∧ nsGet out .size = none ∧ nsGet out .scale = none ∧
    nsGet out .projection = none ∧ nsGet out .overlap = none ∧ nsGet out .tract = none ∧
    (∃ c, nsGet out .radec = some (.coord c)) ∧
    (∃ b, nsGet out .bbox = some (.box b)) ∧
    (∃ w, nsGet out .wcs = some (.wcsV w)) ∧
    (∃ m, nsGet out .skyMap = some (.skyMapV m)) ∧
    (∃ ti, nsGet out .skyTractInfo = some (.tractInfo ti)) ∧
    (radecArg = none → ∀ t, tractArg = some t →
      nsGet out .radec = some (.coord
        ((f proj (Angle.arcseconds sc) (Angle.degrees ov)).getSkyTractInfo t).getCtrCoord)) := by
  rcases radecArg with _ | ⟨r1, r2⟩ <;> rcases tractArg with _ | t <;>
    rcases llcArg with _ | ⟨la, lb⟩ <;> rcases sizeArg with _ | ⟨sx, sy⟩
  · exact Except.noConfusion
      ((parse_args_eval_no_size_pyNone f fw none none proj sc ov).symm.trans h)
  · exact Except.noConfusion
      ((parse_args_eval_no_tract_radec f fw none sx sy proj sc ov).symm.trans h)
  · exact Except.noConfusion
      ((parse_args_eval_no_size_pyNone f fw none (some (la, lb)) proj sc ov).symm.trans h)
  · exact Except.noConfusion
      ((parse_args_eval_no_tract_radec f fw (some (la, lb)) sx sy proj sc ov).symm.trans h)
  · exact Except.noConfusion
      ((parse_args_eval_no_size_pyNone f fw (some t) none proj sc ov).symm.trans h)
  · exact Except.noConfusion
      ((parse_args_eval_no_llc_radec f fw t sx sy proj sc ov).symm.trans h)
  · exact Except.noConfusion
      ((parse_args_eval_no_size_pyNone f fw (some t) (some (la, lb)) proj sc ov).symm.trans h)
  · rw [parse_args_eval_tract_llc] at h
    cases Except.ok.inj h
    exact ⟨rfl, rfl, rfl, rfl, rfl, rfl, ⟨_, rfl⟩, ⟨_, rfl⟩, ⟨_, rfl⟩, ⟨_, rfl⟩, ⟨_, rfl⟩,
      fun _ t2 ht => by cases Option.some.inj ht; exact rfl⟩
  · exact Except.noConfusion
      ((parse_args_eval_no_size_radec f fw r1 r2 none none proj sc ov).symm.trans h)
  · rw [parse_args_eval_radec] at h
    cases Except.ok.inj h
    exact ⟨rfl, rfl, rfl, rfl, rfl, rfl, ⟨_, rfl⟩, ⟨_, rfl⟩, ⟨_, rfl⟩, ⟨_, rfl⟩, ⟨_, rfl⟩,
      fun hh => Option.noConfusion hh⟩
  · exact Except.noConfusion
      ((parse_args_eval_no_size_radec f fw r1 r2 none (some (la, lb)) proj sc ov).symm.trans h)
  · rw [parse_args_eval_radec_llc] at h
    cases Except.ok.inj h
    exact ⟨rfl, rfl, rfl, rfl, rfl, rfl, ⟨_, rfl⟩, ⟨_, rfl⟩, ⟨_, rfl⟩, ⟨_, rfl⟩, ⟨_, rfl⟩,
      fun hh => Option.noConfusion hh⟩
  · exact Except.noConfusion
      ((parse_args_eval_no_size_radec f fw r1 r2 (some t) none proj sc ov).symm.trans h)
  · rw [parse_args_eval_radec_tract] at h
    cases Except.ok.inj h
    exact ⟨rfl, rfl, rfl, rfl, rfl, rfl, ⟨_, rfl⟩, ⟨_, rfl⟩, ⟨_, rfl⟩, ⟨_, rfl⟩, ⟨_, rfl⟩,
      fun hh => Option.noConfusion hh⟩
  · exact Except.noConfusion
      ((parse_args_eval_no_size_radec f fw r1 r2 (some t) (some (la, lb)) proj sc ov).symm.trans h)
  · rw [parse_args_eval_radec_tract_llc] at h
    cases Except.ok.inj h
    exact ⟨rfl, rfl, rfl, rfl, rfl, rfl, ⟨_, rfl⟩, ⟨_, rfl⟩, ⟨_, rfl⟩, ⟨_, rfl⟩, ⟨_, rfl⟩,
      fun hh => Option.noConfusion hh⟩

/-- Claim C6, witness: a concrete successful call with `--radec` omitted and
`--tract 5`, `--llc 3 4`, `--size 10 20` supplied; the deleted attributes
are absent and `radec` holds the tract center. -/
theorem parse_args_attribute_frame_witness :
    nsGet outTractLlc .llc = none ∧ nsGet outTractLlc .size = none ∧
    nsGet outTractLlc .scale = none ∧ nsGet outTractLlc .projection = none ∧
    nsGet outTractLlc .overlap = none ∧ nsGet outTractLlc .tract = none ∧
    nsGet outTractLlc .radec = some (.coord
      ((testSkyMapCtor "STG" (Angle.arcseconds 1) (Angle.degrees 2)).getSkyTractInfo
        5).getCtrCoord) := by
  have h := parse_args_attribute_frame testSkyMapCtor 0 none (some 5) (some (3, 4))
    (some (10, 20)) "STG" 1 2 outTractLlc rfl
  exact ⟨h.1, h.2.1, h.2.2.1, h.2.2.2.1, h.2.2.2.2.1, h.2.2.2.2.2.1,
    h.2.2.2.2.2.2.2.2.2.2.2 rfl 5 rfl⟩

/-- Claim C7: `handleCamera` marks `--overlap` required exactly when the
camera has no entry in the scale table (the source tests `defaultScale ==
None`, not the overlap default); hence a camera with a default scale but no
default overlap gets `--overlap` defaulted to `None` without the parser
demanding a value.  The last conjunct instantiates the mechanism at the
concrete `_DefaultScale` table of the class. -/
theorem handleCamera_overlap_requires_scale_table
    (scaleTable overlapTable : String → Option ℚ) (camera : String) :
    ((handleCamera scaleTable overlapTable camera).2.required = true ↔
      scaleTable camera = none)
    ∧ (handleCamera scaleTable overlapTable camera).2.default = overlapTable camera
    ∧ (scaleTable camera ≠ none → overlapTable camera = none →
        (handleCamera scaleTable overlapTable camera).2.required = false ∧
        (handleCamera scaleTable overlapTable camera).2.default = none)
    ∧ ((handleCamera _DefaultScale _DefaultOverlap camera).2.required = true ↔
      _DefaultScale camera = none) := by
  refine ⟨?_, rfl, ?_, ?_⟩
  · simp [handleCamera, Option.isNone_iff_eq_none]
  · intro h1 h2
    constructor
    · rcases hS : scaleTable camera with _ | q
      · exact absurd hS h1
      · simp [handleCamera, hS]
    · simp [handleCamera, h2]
  · simp [handleCamera, Option.isNone_iff_eq_none]

/-- Claim C7, witness: a camera whose scale table has an entry but whose
overlap table has none gets `--overlap` unrequired and defaulted to None. -/
theorem handleCamera_overlap_requires_scale_table_witness :
    (handleCamera (fun _ => some 1) (fun _ => none) "testCam").2.required = false ∧
    (handleCamera (fun _ => some 1) (fun _ => none) "testCam").2.default = none :=
  (handleCamera_overlap_requires_scale_table (fun _ => some 1) (fun _ => none)
    "testCam").2.2.1 (fun hh => Option.noConfusion hh) rfl

/-- Claim C8: the wrapper is behavior-preserving glue: if the wrapped
function returns a value strictly within the timeout, the wrapper returns
exactly that value; if an alarm is scheduled (`timeout` nonzero, since
`signal.alarm(0)` schedules none) and it comes due before the function
finishes, a `TimeoutError` carrying `errMsg` is raised instead. -/
theorem qaTimeout_wrapper_behavior (timeout : ℕ) (errMsg : String)
    (func : FuncModel α) (s : SignalState) (v : α) :
    (func.outcome = .ok v → func.runTime < timeout →
      (qaTimeout.wrapper timeout errMsg func s).1 = .ok v)
    ∧ (0 < timeout → timeout ≤ func.runTime →
      (qaTimeout.wrapper timeout errMsg func s).1 = .timeoutError errMsg) := by
  constructor
  · intro hout hlt
    simp only [qaTimeout.wrapper]
    rw [if_neg]
    · simp [hout]
    · simp only [decide_eq_true_eq, not_and, not_le]
      intro
      omega
  · intro h1 h2
    simp only [qaTimeout.wrapper]
    rw [if_pos]
    simp only [decide_eq_true_eq]
    exact ⟨h1, h2⟩

/-- Claim C8, witness: a function finishing at 3 seconds under a 5-second
timeout returns its value; under a 2-second timeout it times out. -/
theorem qaTimeout_wrapper_behavior_witness :
    (qaTimeout.wrapper 5 "timed out" (⟨3, .ok 42⟩ : FuncModel ℕ) ⟨0, none⟩).1 = .ok 42 ∧
    (qaTimeout.wrapper 2 "timed out" (⟨3, .ok 42⟩ : FuncModel ℕ) ⟨0, none⟩).1
      = .timeoutError "timed out" :=
  ⟨(qaTimeout_wrapper_behavior 5 "timed out" ⟨3, .ok 42⟩ ⟨0, none⟩ 42).1 rfl (by decide),
   (qaTimeout_wrapper_behavior 2 "timed out" ⟨3, .ok 42⟩ ⟨0, none⟩ 42).2 (by decide) (by decide)⟩

/-- Claim C9: on every path out of the wrapper (normal return, timeout, and
an exception raised by the wrapped function itself) the pending alarm has
been cancelled: the final signal state has no alarm scheduled. -/
theorem qaTimeout_wrapper_cancels_alarm (timeout : ℕ) (errMsg : String)
    (func : FuncModel α) (s : SignalState) :
    ((qaTimeout.wrapper timeout errMsg func s).2).alarmSeconds = 0 := rfl

/-- Claim C10: `FakeSourcesTask.run` is an empty stub: it returns Python
`None` and leaves the task state and all three arguments unchanged. -/
theorem fakeSourcesTask_run_is_stub {τ ε σ β : Type} (task : FakeSourcesTask τ)
    (exposure : ε) (sources : σ) (background : β) :
    FakeSourcesTask.run task exposure sources background
      = (none, task, exposure, sources, background) := rfl
